import Mathlib

/-!
Verification of the MindFlora agent-orchestration and notification-delivery
subsystem against its design document.

The frontend routing and rendering logic is embedded from
`frontend/components/ai-agents-demo.js` (`AIAgentsDemo.sendAgentRequest` and
`AIAgentsDemo.displayAgentResponse`).  The backend agent router
(`agent_router_service/enhanced_agents.py`, referenced by the SMS Setup Guide
but not present in this tree) is modelled from the design document, section by
section; every such definition is marked `Modelled from the spec:`.
-/

namespace Mindflora

/-! ### Character-list string primitives

These model the JavaScript string operations used by the frontend
(`String.prototype.includes`, `String.prototype.toLowerCase`) on the
character-list view of a `String`. -/

/-- Head match: `leadMatch pat s` is true when `pat` occurs at the head of
`s` (character-by-character match). -/
def leadMatch : List Char → List Char → Bool
  | [], _ => true
  | _ :: _, [] => false
  | a :: as, b :: bs => a == b && leadMatch as bs

/-- Substring match: `subMatch pat s` is true when `pat` occurs contiguously
anywhere in `s`. -/
def subMatch (pat : List Char) : List Char → Bool
  | [] => pat.isEmpty
  | b :: bs => leadMatch pat (b :: bs) || subMatch pat bs

/-- Model of JavaScript `s.includes(pat)`. -/
def strContains (s pat : String) : Bool :=
  subMatch pat.toList s.toList

/-- Model of JavaScript `s.toLowerCase()` (ASCII case folding). -/
def toLowerStr (s : String) : String :=
  String.mk (s.toList.map Char.toLower)

/-! ### Frontend endpoint routing

From `AIAgentsDemo.sendAgentRequest` (ai-agents-demo.js): the endpoint is the
enhanced-chat orchestration URL unless the lowercased message contains
"test sms", in which case the direct SMS-test URL is chosen. -/

def enhancedChatEndpoint : String :=
  "http://localhost:8000/api/v1/ai-agents/enhanced-chat"

def testSmsEndpoint : String :=
  "http://localhost:8000/api/v1/ai-agents/test-sms"

/-- Endpoint selection of `sendAgentRequest`:
the lowercased message is probed for the phrase "test sms" and, when it
occurs, the test-sms endpoint replaces the default. -/
def selectEndpoint (message : String) : String :=
  if strContains (toLowerStr message) "test sms" then testSmsEndpoint
  else enhancedChatEndpoint

/-! ### Frontend response rendering

From `AIAgentsDemo.displayAgentResponse` (ai-agents-demo.js). -/

/-- A tool-action result value as the renderer sees it: either a plain string
or an object with optional `status` and `error` fields. -/
structure ObjResult where
  status : Option String
  error : Option String
deriving DecidableEq

inductive ResultVal where
  | str (s : String)
  | obj (o : ObjResult)
deriving DecidableEq

/-- JavaScript truthiness of an optional string field: present and
non-empty. -/
def truthyOpt : Option String → Bool
  | none => false
  | some s => !(s == "")

/-- Placeholder for `JSON.stringify(result)` in the final renderer branch. -/
def jsonStringify (o : ObjResult) : String :=
  "\x7bstatus: " ++ (o.status.getD "undefined") ++ "\x7d"

/-- The `displayResult` computation of `displayAgentResponse`:
an object with a truthy `error` renders as an error line; otherwise a
`service_unavailable`/`service_error` status renders as an error line with a
default text; otherwise the object is JSON-stringified; a non-object renders
as itself. -/
def renderResult : ResultVal → String
  | .str s => s
  | .obj o =>
    if truthyOpt o.error then "❌ " ++ o.error.getD ""
    else if o.status == some "service_unavailable" || o.status == some "service_error" then
      "❌ " ++ (if truthyOpt o.error then o.error.getD "" else "SMS service unavailable")
    else jsonStringify o

/-- The intent object as the renderer sees it. -/
structure DisplayIntent where
  primary_action : String
deriving DecidableEq

/-- The response payload fields that drive the display decisions of the
renderer. -/
structure DisplayData where
  intent : Option DisplayIntent
  tool_actions : List (String × ResultVal)
  user_profile_updated : Bool
deriving DecidableEq

/-- Condition under which `displayAgentResponse` shows the Tool Actions
section: `tool_actions` non-empty and not (intent present with
`primary_action` equal to `setup_sms` and `user_profile_updated` truthy). -/
def showToolActions (d : DisplayData) : Bool :=
  !d.tool_actions.isEmpty &&
    !(match d.intent with
      | some i => i.primary_action == "setup_sms" && d.user_profile_updated
      | none => false)

/-- Condition under which `displayAgentResponse` shows the Profile Updated
section: `data.user_profile_updated` truthy. -/
def showProfileUpdated (d : DisplayData) : Bool :=
  d.user_profile_updated

/-! ### Provider fallback chain

Modelled from the spec, section 4.4 (the implementation,
`agent_router_service/enhanced_agents.py`, named by the SMS Setup Guide, is
not in this tree). -/

/-- Result status of a tool action (spec section 3: `ToolActionResult.status`
has the values success, error, service_unavailable, simulated). -/
inductive Status where
  | success
  | error
  | service_unavailable
  | simulated
deriving DecidableEq

/-- Modelled from the spec: an SMS provider of the fallback chain, tagged with
quota state (remaining sends; whether the reset window has elapsed).  The
outcome of the external delivery call of a provider is not in this tree, so it is
modelled by `attemptResult`: `none` means the delivery attempt succeeds,
`some e` means it fails with provider-scoped error `e`. -/
structure Provider where
  id : String
  quotaRemaining : Nat
  resetElapsed : Bool
  attemptResult : Option String
deriving DecidableEq

/-- Record of one delivery attempt (spec section 3: `DeliveryAttempt`). -/
structure DeliveryAttempt where
  provider_id : String
  outcome : Status
  error : Option String
deriving DecidableEq

/-- Outcome of one `deliver` call (spec section 4.4). -/
structure DeliverOutcome where
  status : Status
  provider : Option String
  error : Option String
  payload : Option String
  attempts : List DeliveryAttempt
deriving DecidableEq

/-- Modelled from the spec: a provider is skipped when its quota is exhausted
and its reset window has not elapsed (spec 4.4 step 1a). -/
def quotaExhausted (p : Provider) : Bool :=
  p.quotaRemaining == 0 && !p.resetElapsed

/-- Modelled from the spec: the loop of `deliver` (spec 4.4 step 1),
carrying the recorded attempts and the last provider-scoped error. -/
def deliverGo : List Provider → List DeliveryAttempt → Option String → DeliverOutcome
  | [], acc, lastErr =>
    { status := .service_unavailable, provider := none, error := lastErr
      payload := none, attempts := acc.reverse }
  | p :: rest, acc, lastErr =>
    if quotaExhausted p then deliverGo rest acc lastErr
    else
      match p.attemptResult with
      | none =>
        { status := .success, provider := some p.id, error := none
          payload := none
          attempts := (⟨p.id, .success, none⟩ :: acc).reverse }
      | some e => deliverGo rest (⟨p.id, .error, some e⟩ :: acc) (some e)

/-- Modelled from the spec: `deliver(message, recipient)` of the Notification
handler (spec 4.4).  No configured providers yields the simulated outcome
carrying the message; otherwise the chain is traversed in order. -/
def deliver (message : String) (providers : List Provider) : DeliverOutcome :=
  if providers.isEmpty then
    { status := .simulated, provider := none, error := none
      payload := some message, attempts := [] }
  else deliverGo providers [] none

/-- The last provider-scoped error produced along the chain: the error of the
last non-skipped, failing provider. -/
def chainLastError (providers : List Provider) : Option String :=
  providers.foldl
    (fun acc p =>
      if quotaExhausted p then acc
      else match p.attemptResult with
        | some e => some e
        | none => acc)
    none

/-! ### Intent classifier

Modelled from the spec, sections 3 and 4.1 (the implementation lives in the
agent router service, which is not in this tree). -/

/-- The closed capability set of requestable tools (spec section 3). -/
inductive Tool where
  | calendar
  | email
  | notification
deriving DecidableEq

inductive Urgency where
  | normal
  | high
  | crisis
deriving DecidableEq

/-- Primary-action values of an Intent (spec sections 3 and 6). -/
inductive PrimaryAction where
  | chat
  | schedule_appointment
  | send_email
  | send_notification
  | setup_sms
deriving DecidableEq

/-- Structured Intent (spec section 3). -/
structure Intent where
  primary_action : PrimaryAction
  tools_requested : List Tool
  urgency_level : Urgency
  therapy_related : Bool
deriving DecidableEq

/-- Modelled from the spec: crisis-indicating vocabulary (spec 4.1; the demo
frontend offers the example utterance "I need urgent support"). -/
def crisisMarkers : List String :=
  ["crisis", "urgent support", "suicide", "hurt myself", "self harm", "emergency"]

/-- A crisis-marker phrase occurs in the utterance (case-insensitively). -/
def containsCrisisMarker (msg : String) : Bool :=
  crisisMarkers.any (fun mk => strContains (toLowerStr msg) mk)

/-- Modelled from the spec: the Intent used when the underlying inference
capability is unavailable (spec 4.1). -/
def chatFallbackIntent : Intent :=
  { primary_action := .chat, tools_requested := [], urgency_level := .normal
    therapy_related := false }

/-- Modelled from the spec: `classify` (spec 4.1).  `inferred` is the result
of the pluggable inference capability (`none` when unavailable).  Any
crisis-indicating vocabulary forces `urgency_level = crisis` and
unconditionally routes to the Notification handler, adding it to the
requested tools when absent. -/
def classify (msg : String) (inferred : Option Intent) : Intent :=
  let base := inferred.getD chatFallbackIntent
  if containsCrisisMarker msg then
    { base with
      urgency_level := .crisis
      tools_requested :=
        if base.tools_requested.contains .notification then base.tools_requested
        else base.tools_requested ++ [.notification] }
  else base

/-! ### Profile updater

Modelled from the spec, section 4.5 (implementation not in this tree; the SMS
guides describe the phone token as a 10-digit number). -/

structure UserProfile where
  phone : Option String
  email : Option String
deriving DecidableEq

/-- One whitespace-splitting pass over the characters of the utterance. -/
def tokensAux : List Char → List Char → List (List Char)
  | [], cur => [cur.reverse]
  | c :: cs, cur =>
    if c == ' ' then cur.reverse :: tokensAux cs []
    else tokensAux cs (c :: cur)

/-- The whitespace-separated tokens of an utterance. -/
def tokens (s : String) : List String :=
  (tokensAux s.toList []).map String.mk

/-- Modelled from the spec: a phone-shaped token is a 10-digit number
(SMS guides: "just type your 10-digit number"). -/
def isPhoneToken (t : String) : Bool :=
  t.toList.length == 10 && t.toList.all Char.isDigit

/-- Modelled from the spec: an email-shaped token contains an `@`. -/
def isEmailToken (t : String) : Bool :=
  t.toList.contains '@'

/-- First phone-shaped token of the utterance, if any. -/
def extractPhone (msg : String) : Option String :=
  (tokens msg).find? isPhoneToken

/-- First email-shaped token of the utterance, if any. -/
def extractEmail (msg : String) : Option String :=
  (tokens msg).find? isEmailToken

/-- Modelled from the spec: the Profile Updater (spec 4.5).  Scans the
utterance for a phone- or email-shaped token; if found and different from the
stored value, persists it and reports `profile_updated = true`; identical or
absent data is a no-op reported as `false`. -/
def updateProfile (msg : String) (p : UserProfile) : UserProfile × Bool :=
  match extractPhone msg with
  | some ph =>
    if p.phone = some ph then (p, false)
    else ({ p with phone := some ph }, true)
  | none =>
    match extractEmail msg with
    | some em =>
      if p.email = some em then (p, false)
      else ({ p with email := some em }, true)
    | none => (p, false)

/-! ### Dispatcher and response synthesizer

Modelled from the spec, sections 4.2, 4.6 and 6 (implementation not in this
tree). -/

/-- Follow-up action item (spec section 3: `ActionItem`). -/
structure ActionItem where
  id : String
  type : String
  title : String
  description : String
  deadline : Option String
deriving DecidableEq

/-- Result of one tool action (spec section 3: `ToolActionResult`), together
with the follow-up task the handler explicitly produced, if any
(spec 4.6: action items derive only from such results). -/
structure ToolActionResult where
  status : Status
  payload : Option String
  error : Option String
  provider : Option String
  followUp : Option ActionItem
deriving DecidableEq

/-- A delivery outcome of the fallback chain, viewed as a tool-action
result. -/
def outcomeToResult (o : DeliverOutcome) : ToolActionResult :=
  { status := o.status, payload := o.payload, error := o.error
    provider := o.provider, followUp := none }

/-- Primary inbound request (spec section 6). -/
structure AgentRequest where
  user_id : String
  message : String
  session_type : String
  timestamp : String
deriving DecidableEq

/-- Modelled from the spec: the external collaborators and shared state one
orchestration call reads — the configured provider chain, the stored user
profile, and the calendar/email handler capabilities (their results). -/
structure Env where
  providers : List Provider
  profile : UserProfile
  calendarResult : ToolActionResult
  emailResult : ToolActionResult
deriving DecidableEq

/-- Canonical action name keying the entry of each handler in `tool_actions`
(spec 4.2; the scenario in spec section 8 keys the notification result by
`sms`). -/
def toolName : Tool → String
  | .calendar => "calendar"
  | .email => "email"
  | .notification => "sms"

/-- Modelled from the spec: one handler invocation (spec 4.2/4.4).  The
Notification handler runs the provider fallback chain. -/
def runHandler (env : Env) (req : AgentRequest) : Tool → ToolActionResult
  | .calendar => env.calendarResult
  | .email => env.emailResult
  | .notification => outcomeToResult (deliver req.message env.providers)

/-- The tool, if any, that realizes a primary action (spec 4.2). -/
def primaryTool : PrimaryAction → Option Tool
  | .chat => none
  | .schedule_appointment => some .calendar
  | .send_email => some .email
  | .send_notification => some .notification
  | .setup_sms => none

/-- Modelled from the spec: overall success is true if the primary-action
tool succeeded, or if no tool was requested (spec 4.2). -/
def overallSuccess (intent : Intent) (ta : List (String × ToolActionResult)) : Bool :=
  intent.tools_requested.isEmpty ||
    (match primaryTool intent.primary_action with
     | some t =>
       match ta.lookup (toolName t) with
       | some r => r.status == .success
       | none => false
     | none => false)

/-- Modelled from the spec: the chat fallback text used for pure chat
responses (spec section 8). -/
def chatFallbackText : String :=
  "I am here to support you. How can I help you today?"

/-- Modelled from the spec: reply text composed from the tool results
(spec 4.6). -/
def composedText (ta : List (String × ToolActionResult)) : String :=
  "I have completed the requested actions: " ++
    String.intercalate ", " (ta.map Prod.fst)

/-- Primary outbound response (spec section 6). -/
structure AgentResponse where
  response : String
  intent : Intent
  tool_actions : List (String × ToolActionResult)
  action_items : List ActionItem
  user_profile_updated : Bool
  success : Bool
deriving DecidableEq

/-- Modelled from the spec: one orchestration call (spec sections 2, 4.2 and
4.6): classify, invoke exactly the handlers implied by the requested tools,
run the profile updater, and synthesize the response. -/
def orchestrate (env : Env) (req : AgentRequest) (inferred : Option Intent) :
    AgentResponse :=
  let intent := classify req.message inferred
  let ta := intent.tools_requested.map (fun t => (toolName t, runHandler env req t))
  let pu := updateProfile req.message env.profile
  { response :=
      if intent.tools_requested.isEmpty then chatFallbackText else composedText ta
    intent := intent
    tool_actions := ta
    action_items := ta.filterMap (fun x => x.2.followUp)
    user_profile_updated := pu.2
    success := overallSuccess intent ta }

/-! ## Claims about the frontend code -/

/-- C8: Any user message containing the literal SMS-test phrase "test sms"
(matched case-insensitively, via lowercasing the message) is routed to the
direct SMS-test endpoint, and every other message to the enhanced-chat
orchestration endpoint; the two endpoints are distinct. -/
theorem test_sms_endpoint_routing (m : String) :
    testSmsEndpoint ≠ enhancedChatEndpoint
    ∧ (strContains (toLowerStr m) "test sms" = true →
        selectEndpoint m = testSmsEndpoint)
    ∧ (strContains (toLowerStr m) "test sms" = false →
        selectEndpoint m = enhancedChatEndpoint) := by
  refine ⟨by decide, fun h => ?_, fun h => ?_⟩ <;> simp [selectEndpoint, h]

/-- Witness for C8 at a mixed-case SMS-test message and a plain chat
message. -/
theorem test_sms_endpoint_routing_witness :
    selectEndpoint "Try TEST SMS now" = testSmsEndpoint
    ∧ selectEndpoint "hello" = enhancedChatEndpoint :=
  ⟨(test_sms_endpoint_routing "Try TEST SMS now").2.1 (by decide),
   (test_sms_endpoint_routing "hello").2.2 (by decide)⟩

/-- C9: when the response carries an intent with primary action `setup_sms`
and the profile-updated flag is set, the Tool Actions section is suppressed
while the Profile Updated section is still shown. -/
theorem setup_confirmation_suppressed (d : DisplayData) (i : DisplayIntent)
    (hi : d.intent = some i) (ha : i.primary_action = "setup_sms")
    (hu : d.user_profile_updated = true) :
    showToolActions d = false ∧ showProfileUpdated d = true := by
  constructor
  · simp [showToolActions, hi, ha, hu]
  · simpa [showProfileUpdated] using hu

/-- Witness for C9 at a response holding one tool action, a `setup_sms`
intent and a set profile-updated flag. -/
theorem setup_confirmation_suppressed_witness :
    showToolActions
        ⟨some ⟨"setup_sms"⟩, [("sms", ResultVal.str "saved")], true⟩ = false
    ∧ showProfileUpdated
        ⟨some ⟨"setup_sms"⟩, [("sms", ResultVal.str "saved")], true⟩ = true :=
  setup_confirmation_suppressed
    ⟨some ⟨"setup_sms"⟩, [("sms", ResultVal.str "saved")], true⟩
    ⟨"setup_sms"⟩ rfl rfl rfl

/-- C10: a tool-action object with a truthy (non-empty) `error` field is
rendered as an error line — the error text prefixed with the error marker —
whatever its `status` field holds, including `success`. -/
theorem error_field_precedence (st : Option String) (e : String) (he : e ≠ "") :
    renderResult (.obj ⟨st, some e⟩) = "❌ " ++ e := by
  simp [renderResult, truthyOpt, he]

/-- Witness for C10 at an entry whose status is `success` yet whose error
field is set: it still renders as an error line. -/
theorem error_field_precedence_witness :
    renderResult (.obj ⟨some "success", some "boom"⟩) = "❌ " ++ "boom" :=
  error_field_precedence (some "success") "boom" (by decide)

/-! ## Fallback-chain lemmas -/

/-- The chain loop either succeeds carrying no error, or reports
`service_unavailable` carrying no provider. -/
lemma deliverGo_status_shape (ps : List Provider) :
    ∀ acc lastErr,
      ((deliverGo ps acc lastErr).status = Status.success ∧
        (deliverGo ps acc lastErr).error = none)
      ∨ ((deliverGo ps acc lastErr).status = Status.service_unavailable ∧
        (deliverGo ps acc lastErr).provider = none) := by
  induction ps with
  | nil => intro acc e; right; simp [deliverGo]
  | cons p rest ih =>
    intro acc e
    by_cases hq : quotaExhausted p = true
    · simpa [deliverGo, hq] using ih acc e
    · cases hr : p.attemptResult with
      | none => left; simp [deliverGo, hq, hr]
      | some err => simpa [deliverGo, hq, hr] using ih _ _

/-- When every non-skipped provider fails, the chain loop reports
`service_unavailable` and folds up the last error. -/
lemma deliverGo_exhaust (ps : List Provider) :
    ∀ acc lastErr,
      (∀ p ∈ ps, quotaExhausted p = false → (p.attemptResult).isSome = true) →
      (deliverGo ps acc lastErr).status = Status.service_unavailable ∧
      (deliverGo ps acc lastErr).error =
        ps.foldl
          (fun acc2 p =>
            if quotaExhausted p then acc2
            else match p.attemptResult with
              | some e => some e
              | none => acc2)
          lastErr := by
  induction ps with
  | nil => intro acc e _; simp [deliverGo]
  | cons p rest ih =>
    intro acc e h
    by_cases hq : quotaExhausted p = true
    · simpa [deliverGo, hq] using
        ih acc e (fun q hm hf => h q (List.mem_cons_of_mem _ hm) hf)
    · have hf : quotaExhausted p = false := by simpa using hq
      have hs := h p (List.mem_cons_self _ _) hf
      cases hr : p.attemptResult with
      | none => rw [hr] at hs; simp at hs
      | some err =>
        simpa [deliverGo, hf, hr] using
          ih _ _ (fun q hm hh => h q (List.mem_cons_of_mem _ hm) hh)

/-- The provider ids of the recorded attempts form a sublist of the
accumulated ids followed by the ids of the chain. -/
lemma deliverGo_ids_sublist (ps : List Provider) :
    ∀ acc lastErr,
      List.Sublist
        ((deliverGo ps acc lastErr).attempts.map DeliveryAttempt.provider_id)
        (acc.reverse.map DeliveryAttempt.provider_id ++ ps.map Provider.id) := by
  induction ps with
  | nil => intro acc e; simp [deliverGo]
  | cons p rest ih =>
    intro acc e
    by_cases hq : quotaExhausted p = true
    · rw [show deliverGo (p :: rest) acc e = deliverGo rest acc e by
        simp [deliverGo, hq]]
      exact (ih acc e).trans
        ((List.sublist_cons_self p.id (rest.map Provider.id)).append_left _)
    · cases hr : p.attemptResult with
      | none =>
        simp only [deliverGo, hq, if_false, Bool.false_eq_true, hr]
        simp [List.map_append]
      | some err =>
        rw [show deliverGo (p :: rest) acc e
            = deliverGo rest (⟨p.id, .error, some err⟩ :: acc) (some err) by
          simp [deliverGo, hq, hr]]
        refine (ih _ _).trans ?_
        simp [List.map_append]

/-- All attempts recorded before the final one are failures, provided the
accumulator already holds only failures. -/
lemma deliverGo_stops (ps : List Provider) :
    ∀ acc lastErr, (∀ a ∈ acc, a.outcome = Status.error) →
      ∀ a ∈ (deliverGo ps acc lastErr).attempts.dropLast,
        a.outcome = Status.error := by
  induction ps with
  | nil =>
    intro acc e hacc a ha
    simp only [deliverGo] at ha
    exact hacc a (List.mem_reverse.mp ((List.dropLast_sublist _).subset ha))
  | cons p rest ih =>
    intro acc e hacc a ha
    by_cases hq : quotaExhausted p = true
    · rw [show deliverGo (p :: rest) acc e = deliverGo rest acc e by
        simp [deliverGo, hq]] at ha
      exact ih acc e hacc a ha
    · cases hr : p.attemptResult with
      | none =>
        simp only [deliverGo, hq, if_false, Bool.false_eq_true, hr,
          List.reverse_cons, List.dropLast_concat] at ha
        exact hacc a (List.mem_reverse.mp ha)
      | some err =>
        rw [show deliverGo (p :: rest) acc e
            = deliverGo rest (⟨p.id, .error, some err⟩ :: acc) (some err) by
          simp [deliverGo, hq, hr]] at ha
        refine ih _ _ ?_ a ha
        intro b hb
        rcases List.mem_cons.mp hb with hb | hb
        · rw [hb]
        · exact hacc b hb

/-- Every recorded attempt originates from a non-skipped provider of the
chain, or was already in the accumulator. -/
lemma deliverGo_attempt_source (ps : List Provider) :
    ∀ acc lastErr a, a ∈ (deliverGo ps acc lastErr).attempts →
      a ∈ acc ∨ ∃ q, q ∈ ps ∧ quotaExhausted q = false ∧ a.provider_id = q.id := by
  induction ps with
  | nil =>
    intro acc e a ha
    left
    simpa [deliverGo] using ha
  | cons p rest ih =>
    intro acc e a ha
    by_cases hq : quotaExhausted p = true
    · rw [show deliverGo (p :: rest) acc e = deliverGo rest acc e by
        simp [deliverGo, hq]] at ha
      rcases ih acc e a ha with h | ⟨q, hm, hqe, hid⟩
      · exact Or.inl h
      · exact Or.inr ⟨q, List.mem_cons_of_mem _ hm, hqe, hid⟩
    · have hf : quotaExhausted p = false := by simpa using hq
      cases hr : p.attemptResult with
      | none =>
        simp only [deliverGo, hq, if_false, Bool.false_eq_true, hr,
          List.reverse_cons, List.mem_append, List.mem_reverse,
          List.mem_singleton] at ha
        rcases ha with h | h
        · exact Or.inl h
        · exact Or.inr ⟨p, List.mem_cons_self _ _, hf, by rw [h]⟩
      | some err =>
        rw [show deliverGo (p :: rest) acc e
            = deliverGo rest (⟨p.id, .error, some err⟩ :: acc) (some err) by
          simp [deliverGo, hq, hr]] at ha
        rcases ih _ _ a ha with h | ⟨q, hm, hqe, hid⟩
        · rcases List.mem_cons.mp h with h | h
          · exact Or.inr ⟨p, List.mem_cons_self _ _, hf, by rw [h]⟩
          · exact Or.inl h
        · exact Or.inr ⟨q, List.mem_cons_of_mem _ hm, hqe, hid⟩

/-! ## Claims about the provider fallback chain -/

/-- C1: every `deliver` call returns exactly one outcome whose status is
success, service_unavailable or simulated; a success carries no error and an
unavailability carries no provider (never a combined success-and-failure
record); and when the whole chain is exhausted with no success the outcome is
`service_unavailable` carrying the last error. -/
theorem sms_deliver_single_outcome (m : String) (ps : List Provider) :
    ((deliver m ps).status = Status.success ∨
      (deliver m ps).status = Status.service_unavailable ∨
      (deliver m ps).status = Status.simulated)
    ∧ ((deliver m ps).status = Status.success → (deliver m ps).error = none)
    ∧ ((deliver m ps).status = Status.service_unavailable →
        (deliver m ps).provider = none)
    ∧ (ps ≠ [] →
        (∀ p ∈ ps, quotaExhausted p = false → (p.attemptResult).isSome = true) →
        (deliver m ps).status = Status.service_unavailable ∧
        (deliver m ps).error = chainLastError ps) := by
  by_cases hps : ps = []
  · subst hps; simp [deliver]
  · have hne : ps.isEmpty = false := by simpa [List.isEmpty_iff] using hps
    have hrw : deliver m ps = deliverGo ps [] none := by simp [deliver, hne]
    rw [hrw]
    have hshape := deliverGo_status_shape ps [] none
    refine ⟨?_, ?_, ?_, ?_⟩
    · rcases hshape with ⟨h1, _⟩ | ⟨h1, _⟩
      · exact Or.inl h1
      · exact Or.inr (Or.inl h1)
    · intro hs
      rcases hshape with ⟨_, h2⟩ | ⟨h1, _⟩
      · exact h2
      · exact absurd (hs.symm.trans h1) (by decide)
    · intro hs
      rcases hshape with ⟨h1, _⟩ | ⟨_, h2⟩
      · exact absurd (h1.symm.trans hs) (by decide)
      · exact h2
    · intro _ hall
      have h := deliverGo_exhaust ps [] none hall
      exact ⟨h.1, by simpa [chainLastError] using h.2⟩

/-- Witness for C1 at a one-provider chain whose only provider fails: the
outcome is `service_unavailable` carrying that last error. -/
theorem sms_deliver_single_outcome_witness :
    (deliver "hi" [⟨"twilio", 5, false, some "auth error"⟩]).status
        = Status.service_unavailable
    ∧ (deliver "hi" [⟨"twilio", 5, false, some "auth error"⟩]).error
        = chainLastError [⟨"twilio", 5, false, some "auth error"⟩] :=
  (sms_deliver_single_outcome "hi" [⟨"twilio", 5, false, some "auth error"⟩]).2.2.2
    (by decide) (by decide)

/-- C2: within one request, provided the configured provider ids are
distinct, the recorded attempts never name the same provider twice, and every
attempt before the final one is a failure — the traversal stops at the first
success. -/
theorem fallback_no_provider_revisit (m : String) (ps : List Provider)
    (hnd : (ps.map Provider.id).Nodup) :
    ((deliver m ps).attempts.map DeliveryAttempt.provider_id).Nodup
    ∧ ∀ a ∈ (deliver m ps).attempts.dropLast, a.outcome = Status.error := by
  by_cases hps : ps = []
  · subst hps; simp [deliver]
  · have hne : ps.isEmpty = false := by simpa [List.isEmpty_iff] using hps
    have hrw : deliver m ps = deliverGo ps [] none := by simp [deliver, hne]
    rw [hrw]
    constructor
    · have h := deliverGo_ids_sublist ps [] none
      simp only [List.reverse_nil, List.map_nil, List.nil_append] at h
      exact hnd.sublist h
    · exact deliverGo_stops ps [] none (by simp)

/-- Witness for C2 at a two-provider chain whose first provider fails and
whose second succeeds. -/
theorem fallback_no_provider_revisit_witness :
    (((deliver "hi" [⟨"twilio", 5, false, some "bad auth"⟩,
        ⟨"textbelt", 1, true, none⟩]).attempts.map
      DeliveryAttempt.provider_id).Nodup)
    ∧ ∀ a ∈ (deliver "hi" [⟨"twilio", 5, false, some "bad auth"⟩,
        ⟨"textbelt", 1, true, none⟩]).attempts.dropLast,
        a.outcome = Status.error :=
  fallback_no_provider_revisit "hi"
    [⟨"twilio", 5, false, some "bad auth"⟩, ⟨"textbelt", 1, true, none⟩]
    (by decide)

/-- C3: a provider whose quota is exhausted inside its reset window is
deterministically skipped — delivery over a chain headed by such a provider
equals delivery over the rest of the chain — and every recorded attempt
originates from a non-exhausted provider; the skip is a silent fall-through,
not an abort. -/
theorem quota_exhausted_skip (m : String) :
    (∀ p rest, quotaExhausted p = true → rest ≠ [] →
      deliver m (p :: rest) = deliver m rest)
    ∧ ∀ ps, ∀ a ∈ (deliver m ps).attempts,
        ∃ q, q ∈ ps ∧ quotaExhausted q = false ∧ a.provider_id = q.id := by
  constructor
  · intro p rest hq hrest
    have h2 : rest.isEmpty = false := by simpa [List.isEmpty_iff] using hrest
    simp [deliver, h2, deliverGo, hq]
  · intro ps a ha
    by_cases hps : ps = []
    · subst hps; simp [deliver] at ha
    · have hne : ps.isEmpty = false := by simpa [List.isEmpty_iff] using hps
      rw [show deliver m ps = deliverGo ps [] none by simp [deliver, hne]] at ha
      rcases deliverGo_attempt_source ps [] none a ha with h | h
      · simp at h
      · exact h

/-- Witness for C3: a chain headed by a quota-exhausted provider delivers
exactly as the chain without it. -/
theorem quota_exhausted_skip_witness :
    deliver "hi" [⟨"textbelt", 0, false, some "quota"⟩, ⟨"twilio", 5, false, none⟩]
      = deliver "hi" [⟨"twilio", 5, false, none⟩] :=
  (quota_exhausted_skip "hi").1 ⟨"textbelt", 0, false, some "quota"⟩
    [⟨"twilio", 5, false, none⟩] (by decide) (by decide)

/-! ## Orchestration claims -/

/-- When the notification tool is among the invoked tools, the `sms` entry of
the composed tool-action map is the result of the Notification handler. -/
lemma lookup_sms_of_mem (env : Env) (req : AgentRequest) (l : List Tool)
    (hl : Tool.notification ∈ l) :
    (l.map (fun t => (toolName t, runHandler env req t))).lookup "sms"
      = some (runHandler env req .notification) := by
  induction l with
  | nil => cases hl
  | cons t rest ih =>
    cases t with
    | notification => simp [toolName, List.lookup]
    | calendar =>
      have hm : Tool.notification ∈ rest := by
        rcases List.mem_cons.mp hl with h | h
        · cases h
        · exact h
      simpa [toolName, List.lookup] using ih hm
    | email =>
      have hm : Tool.notification ∈ rest := by
        rcases List.mem_cons.mp hl with h | h
        · cases h
        · exact h
      simpa [toolName, List.lookup] using ih hm

/-- C4: with no providers configured, `deliver` returns the labeled simulated
outcome carrying the message — distinct from success and from
service_unavailable by its status — and any request whose classified intent
invokes the notification tool then gets an `sms` tool action with status
`simulated`. -/
theorem no_providers_simulated :
    (∀ m, deliver m [] =
      { status := .simulated, provider := none, error := none
        payload := some m, attempts := [] })
    ∧ ∀ env req inferred, env.providers = [] →
        Tool.notification ∈ (classify req.message inferred).tools_requested →
        ∃ r, (orchestrate env req inferred).tool_actions.lookup "sms" = some r
          ∧ r.status = Status.simulated := by
  constructor
  · intro m; rfl
  · intro env req inferred hp hmem
    refine ⟨runHandler env req .notification, ?_, ?_⟩
    · simpa [orchestrate] using
        lookup_sms_of_mem env req (classify req.message inferred).tools_requested hmem
    · simp [runHandler, outcomeToResult, hp, deliver]

/-- Witness for C4: a "test sms" request against an environment with no
configured providers yields an `sms` tool action with status `simulated`. -/
theorem no_providers_simulated_witness :
    ∃ r, (orchestrate
        ⟨[], ⟨some "6048135997", none⟩,
          ⟨.success, none, none, none, none⟩, ⟨.success, none, none, none, none⟩⟩
        ⟨"demo_user", "test sms", "ai_agent_chat", "t0"⟩
        (some ⟨.send_notification, [.notification], .normal, false⟩)).tool_actions.lookup
          "sms" = some r
      ∧ r.status = Status.simulated :=
  no_providers_simulated.2
    ⟨[], ⟨some "6048135997", none⟩,
      ⟨.success, none, none, none, none⟩, ⟨.success, none, none, none, none⟩⟩
    ⟨"demo_user", "test sms", "ai_agent_chat", "t0"⟩
    (some ⟨.send_notification, [.notification], .normal, false⟩)
    rfl (by decide)

/-- C5: a crisis-marker phrase in the utterance forces the classified
urgency to `crisis` whatever the inference produced, routes the notification
tool into the requested tools, and the composed response carries an `sms`
tool-action entry — the Notification handler is invoked even when
notification was not among the inferred tools. -/
theorem crisis_forces_notification (env : Env) (req : AgentRequest)
    (inferred : Option Intent)
    (h : containsCrisisMarker req.message = true) :
    (classify req.message inferred).urgency_level = Urgency.crisis
    ∧ Tool.notification ∈ (classify req.message inferred).tools_requested
    ∧ "sms" ∈ (orchestrate env req inferred).tool_actions.map Prod.fst := by
  have hmem : Tool.notification ∈ (classify req.message inferred).tools_requested := by
    simp only [classify, h, if_true]
    by_cases hc :
        Tool.notification ∈ (inferred.getD chatFallbackIntent).tools_requested
    · simp [hc]
    · simp [hc]
  refine ⟨by simp [classify, h], hmem, ?_⟩
  simp only [orchestrate, List.map_map]
  exact List.mem_map.mpr ⟨Tool.notification, hmem, rfl⟩

/-- Witness for C5 at the utterance "I need urgent support" with an inferred
intent that did not request notification. -/
theorem crisis_forces_notification_witness :
    (classify
        (AgentRequest.mk "demo_user" "I need urgent support" "ai_agent_chat" "t0").message
        (some ⟨.chat, [], .normal, true⟩)).urgency_level = Urgency.crisis
    ∧ Tool.notification ∈ (classify
        (AgentRequest.mk "demo_user" "I need urgent support" "ai_agent_chat" "t0").message
        (some ⟨.chat, [], .normal, true⟩)).tools_requested
    ∧ "sms" ∈ (orchestrate
        ⟨[⟨"twilio", 5, false, none⟩], ⟨none, none⟩,
          ⟨.success, none, none, none, none⟩, ⟨.success, none, none, none, none⟩⟩
        (AgentRequest.mk "demo_user" "I need urgent support" "ai_agent_chat" "t0")
        (some ⟨.chat, [], .normal, true⟩)).tool_actions.map Prod.fst :=
  crisis_forces_notification
    ⟨[⟨"twilio", 5, false, none⟩], ⟨none, none⟩,
      ⟨.success, none, none, none, none⟩, ⟨.success, none, none, none, none⟩⟩
    (AgentRequest.mk "demo_user" "I need urgent support" "ai_agent_chat" "t0")
    (some ⟨.chat, [], .normal, true⟩) (by decide)

/-- C7: a request whose classified intent requests no tools composes the pure
chat response: empty tool-action map, the chat fallback text, and overall
success. -/
theorem pure_chat_path (env : Env) (req : AgentRequest) (inferred : Option Intent)
    (h : (classify req.message inferred).tools_requested = []) :
    (orchestrate env req inferred).tool_actions = []
    ∧ (orchestrate env req inferred).response = chatFallbackText
    ∧ (orchestrate env req inferred).success = true := by
  refine ⟨?_, ?_, ?_⟩ <;> simp [orchestrate, h, overallSuccess]

/-- Witness for C7 at the utterance "hello" with the inference capability
unavailable. -/
theorem pure_chat_path_witness :
    (orchestrate
        ⟨[], ⟨none, none⟩, ⟨.success, none, none, none, none⟩,
          ⟨.success, none, none, none, none⟩⟩
        ⟨"demo_user", "hello", "ai_agent_chat", "t0"⟩ none).tool_actions = []
    ∧ (orchestrate
        ⟨[], ⟨none, none⟩, ⟨.success, none, none, none, none⟩,
          ⟨.success, none, none, none, none⟩⟩
        ⟨"demo_user", "hello", "ai_agent_chat", "t0"⟩ none).response
        = chatFallbackText
    ∧ (orchestrate
        ⟨[], ⟨none, none⟩, ⟨.success, none, none, none, none⟩,
          ⟨.success, none, none, none, none⟩⟩
        ⟨"demo_user", "hello", "ai_agent_chat", "t0"⟩ none).success = true :=
  pure_chat_path
    ⟨[], ⟨none, none⟩, ⟨.success, none, none, none, none⟩,
      ⟨.success, none, none, none, none⟩⟩
    ⟨"demo_user", "hello", "ai_agent_chat", "t0"⟩ none (by decide)

/-! ## Profile updater claim -/

/-- C6: profile writes are idempotent.  Re-running the updater on its own
output is a no-op reported as `false`; the updated flag of the first run is
true exactly when the stored profile actually changed; and a phone token
differing from the stored phone is persisted with the flag set. -/
theorem profile_update_idempotent (msg : String) (p : UserProfile) :
    (updateProfile msg (updateProfile msg p).1).1 = (updateProfile msg p).1
    ∧ (updateProfile msg (updateProfile msg p).1).2 = false
    ∧ ((updateProfile msg p).2 = true ↔ (updateProfile msg p).1 ≠ p)
    ∧ ∀ ph, extractPhone msg = some ph → p.phone ≠ some ph →
        (updateProfile msg p).2 = true ∧ (updateProfile msg p).1.phone = some ph := by
  cases hph : extractPhone msg with
  | some ph =>
    by_cases he : p.phone = some ph
    · have hu : updateProfile msg p = (p, false) := by
        simp [updateProfile, hph, he]
      refine ⟨by simp [hu], by simp [hu], by simp [hu], ?_⟩
      intro ph2 hx hcon
      injection hx with hx
      rw [← hx] at hcon
      exact absurd he hcon
    · have hu : updateProfile msg p = ({ p with phone := some ph }, true) := by
        simp [updateProfile, hph, he]
      have hu2 : updateProfile msg { p with phone := some ph }
          = ({ p with phone := some ph }, false) := by
        simp [updateProfile, hph]
      have hne : ({ p with phone := some ph } : UserProfile) ≠ p := fun hcon =>
        he (by rw [← congrArg UserProfile.phone hcon])
      refine ⟨by simp [hu, hu2], by simp [hu, hu2], by simp [hu, hne], ?_⟩
      intro ph2 hx _
      injection hx with hx
      simp [hu, ← hx]
  | none =>
    cases hem : extractEmail msg with
    | some em =>
      by_cases he : p.email = some em
      · have hu : updateProfile msg p = (p, false) := by
          simp [updateProfile, hph, hem, he]
        refine ⟨by simp [hu], by simp [hu], by simp [hu], ?_⟩
        intro ph2 hx
        exact absurd hx (by simp)
      · have hu : updateProfile msg p = ({ p with email := some em }, true) := by
          simp [updateProfile, hph, hem, he]
        have hu2 : updateProfile msg { p with email := some em }
            = ({ p with email := some em }, false) := by
          simp [updateProfile, hph, hem]
        have hne : ({ p with email := some em } : UserProfile) ≠ p := fun hcon =>
          he (by rw [← congrArg UserProfile.email hcon])
        refine ⟨by simp [hu, hu2], by simp [hu, hu2], by simp [hu, hne], ?_⟩
        intro ph2 hx
        exact absurd hx (by simp)
    | none =>
      have hu : updateProfile msg p = (p, false) := by
        simp [updateProfile, hph, hem]
      refine ⟨by simp [hu], by simp [hu], by simp [hu], ?_⟩
      intro ph2 hx
      exact absurd hx (by simp)

/-- Witness for C6: submitting the same phone number to an empty profile
persists it with the flag set, and the second submission is a no-op reported
as `false`. -/
theorem profile_update_idempotent_witness :
    ((updateProfile "My phone number is 6048135997" ⟨none, none⟩).2 = true
      ∧ (updateProfile "My phone number is 6048135997" ⟨none, none⟩).1.phone
          = some "6048135997")
    ∧ (updateProfile "My phone number is 6048135997"
        (updateProfile "My phone number is 6048135997" ⟨none, none⟩).1).1
        = (updateProfile "My phone number is 6048135997" ⟨none, none⟩).1
    ∧ (updateProfile "My phone number is 6048135997"
        (updateProfile "My phone number is 6048135997" ⟨none, none⟩).1).2 = false :=
  ⟨(profile_update_idempotent "My phone number is 6048135997" ⟨none, none⟩).2.2.2
      "6048135997" (by decide) (by decide),
   (profile_update_idempotent "My phone number is 6048135997" ⟨none, none⟩).1,
   (profile_update_idempotent "My phone number is 6048135997" ⟨none, none⟩).2.1⟩

end Mindflora
